import Mathlib

/-!
Verification of the EcoCompute governance backend (src/backend/main.py and
src/backend/schemas.py) against its natural-language specification.

The service is a thin HTTP layer: pydantic schema validation, a two-clause
string-matching policy evaluator, and two ORM tables (audit_logs and
registered_models).  We embed the request schemas, the database state, the
identity stub `verify_token`, and the three handlers `health_check`,
`register_model` and `evaluate_policy` as pure Lean functions.  Database
commits are modelled by an explicit `CommitOutcome` argument per commit
site (ok, or failure with the exception text); an exception escaping the
handler is modelled by the `HandlerResult.uncaught` constructor.
-/

namespace Governance

/-- Substring test on character lists: does `needle` start `hay`? -/
def startsWithChars : List Char → List Char → Bool
  | [], _ => true
  | _ :: _, [] => false
  | c :: cs, d :: ds => c == d && startsWithChars cs ds

/-- Does `needle` occur contiguously anywhere inside `hay`? -/
def containsSub (needle : List Char) : List Char → Bool
  | [] => startsWithChars needle []
  | d :: ds => startsWithChars needle (d :: ds) || containsSub needle ds

/-- Embedding of the Python expression `needle in hay` on strings. -/
def strContains (hay needle : String) : Bool :=
  containsSub needle.data hay.data

/-- Embedding of Python `s.lower()`: character-wise lowercasing (the
identifiers involved are ASCII, where the two agree). -/
def lowerStr (s : String) : String :=
  String.mk (s.data.map Char.toLower)

/-- Mathematical statement that `needle` occurs contiguously in `hay`. -/
def ListOccurs (needle hay : List Char) : Prop :=
  ∃ pre post, hay = pre ++ needle ++ post

/-- Mathematical statement that the string `needle` is a contiguous
substring of the string `hay`. -/
abbrev OccursIn (needle hay : String) : Prop :=
  ListOccurs needle.data hay.data

theorem startsWithChars_iff (needle hay : List Char) :
    startsWithChars needle hay = true ↔ ∃ rest, hay = needle ++ rest := by
  induction needle generalizing hay with
  | nil => simp [startsWithChars]
  | cons c cs ih =>
    cases hay with
    | nil => simp [startsWithChars]
    | cons d ds =>
      simp only [startsWithChars, Bool.and_eq_true, beq_iff_eq, ih,
        List.cons_append, List.cons.injEq]
      constructor
      · rintro ⟨hcd, rest, hrest⟩
        exact ⟨rest, hcd.symm, hrest⟩
      · rintro ⟨rest, hdc, hrest⟩
        exact ⟨hdc.symm, rest, hrest⟩

theorem containsSub_iff (needle hay : List Char) :
    containsSub needle hay = true ↔ ListOccurs needle hay := by
  induction hay with
  | nil =>
    simp only [containsSub, startsWithChars_iff, ListOccurs]
    constructor
    · rintro ⟨rest, h⟩
      rcases List.append_eq_nil.mp h.symm with ⟨h1, h2⟩
      exact ⟨[], [], by simp [h1]⟩
    · rintro ⟨pre, post, h⟩
      rcases List.append_eq_nil.mp h.symm with ⟨h1, h2⟩
      rcases List.append_eq_nil.mp h1 with ⟨h3, h4⟩
      exact ⟨[], by simp [h4]⟩
  | cons d ds ih =>
    simp only [containsSub, Bool.or_eq_true, startsWithChars_iff, ih, ListOccurs]
    constructor
    · rintro (⟨rest, h⟩ | ⟨pre, post, h⟩)
      · exact ⟨[], rest, by simpa using h⟩
      · exact ⟨d :: pre, post, by simp [h]⟩
    · rintro ⟨pre, post, h⟩
      cases pre with
      | nil => exact Or.inl ⟨post, by simpa using h⟩
      | cons p ps =>
        right
        simp only [List.cons_append, List.cons.injEq] at h
        exact ⟨ps, post, h.2⟩

instance (needle hay : List Char) : Decidable (ListOccurs needle hay) :=
  decidable_of_iff (containsSub needle hay = true) (containsSub_iff needle hay)

theorem strContains_iff (hay needle : String) :
    strContains hay needle = true ↔ OccursIn needle hay :=
  containsSub_iff needle.data hay.data

/-- Request body of POST /api/v1/models/register (pydantic `ModelCreate`).
Field types as declared in main.py; `efficiency_score` defaults to 0. -/
structure ModelCreate where
  name : String
  region_id : String
  type : String
  criticality : String
  efficiency_score : Int := 0
deriving DecidableEq, Repr

/-- Value constraints imposed by the `ModelCreate` class declared in
main.py (the one the route actually uses): none beyond field types. -/
def mainModelCreateValid (_ : ModelCreate) : Bool :=
  true

/-- The regex `^(Low|Medium|High)$` from schemas.py applied to a string. -/
def criticalityPatternOk (s : String) : Bool :=
  s == "Low" || s == "Medium" || s == "High"

/-- Value constraints imposed by the `ModelCreate` class declared in
schemas.py: criticality matches `^(Low|Medium|High)$` and
`0 ≤ efficiency_score ≤ 100`.  main.py never imports this class. -/
def schemasModelCreateValid (m : ModelCreate) : Bool :=
  criticalityPatternOk m.criticality
    && decide (0 ≤ m.efficiency_score) && decide (m.efficiency_score ≤ 100)

/-- Request body of POST /api/v1/policy/evaluate.  main.py declares
`action` and `model_id`; schemas.py adds an optional `context` payload,
which main.py's model silently discards.  We keep it as an opaque field
so independence from it can be stated. -/
structure PolicyCheckRequest where
  action : String
  model_id : String
  context : List (String × String) := []
deriving DecidableEq, Repr

structure PolicyCheckResponse where
  allowed : Bool
  reason : String
deriving DecidableEq, Repr

/-- Response envelope of the register endpoint.  `data`, when present, is
the `{"message": ...}` payload, modelled by its message string. -/
structure APIResponse where
  success : Bool
  data : Option String := none
  error : Option String := none
deriving DecidableEq, Repr

/-- The JSON `details` column of an audit row: an optional reason plus the
dumped request model. -/
structure AuditDetails where
  reason : Option String
  model : ModelCreate
deriving DecidableEq, Repr

/-- A row of the audit_logs table (id and timestamp omitted: they are
store-assigned and no claim mentions them). -/
structure AuditLog where
  action : String
  user_id : String
  details : AuditDetails
deriving DecidableEq, Repr

/-- A row of the registered_models table (id omitted, store-assigned). -/
structure PolicyModel where
  name : String
  criticality : String
  type : String
  region : String
deriving DecidableEq, Repr

/-- The committed contents of the two tables. -/
structure DBState where
  audit_logs : List AuditLog
  registered_models : List PolicyModel
deriving DecidableEq, Repr

/-- Outcome of one `db.commit()` call: success, or an exception whose
`str(e)` is the given message. -/
inductive CommitOutcome where
  | ok
  | fail (msg : String)
deriving DecidableEq, Repr

/-- What a handler invocation produces: an HTTP response together with the
committed database state afterwards, or an exception escaping the handler
(the session is closed without commit, so the committed state is the
pre-request state). -/
inductive HandlerResult where
  | response (resp : APIResponse) (db : DBState)
  | uncaught (msg : String) (db : DBState)
deriving DecidableEq, Repr

/-- Embedding of `verify_token`: Python falsiness of the optional
`authorization` header value (`None` or the empty string). -/
def pyFalsyHeader : Option String → Bool
  | none => true
  | some s => s == ""

/-- The identity stub `verify_token` from main.py. -/
def verify_token (authorization : Option String) : String :=
  if pyFalsyHeader authorization then "anon-user" else "authenticated-user"

/-- Health payload of GET /. -/
structure HealthResponse where
  status : String
  mode : String
deriving DecidableEq, Repr

/-- The GET / handler `health_check` from main.py.  Its body touches no
database session; the committed state is returned unchanged. -/
def health_check (db : DBState) : HealthResponse × DBState :=
  ({ status := "healthy", mode := "standalone (sqlite)" }, db)

/-- The deny condition of the registration policy check, exactly as the
conditional on main.py lines 94-96 computes it. -/
def registrationDenied (model : ModelCreate) : Bool :=
  let is_dirty_region :=
    strContains model.region_id "east" || strContains model.region_id "central"
  model.type == "Large" && model.criticality == "High" && is_dirty_region

/-- The POST /api/v1/models/register handler from main.py, after schema
validation and identity resolution.  `commitVio` is the outcome of the
`db.commit()` on the violation path (outside any try block); `commitReg`
is the outcome of the `db.commit()` inside the try block on the
registration path, whose `except` clause rolls back and returns the
exception text. -/
def register_model (model : ModelCreate) (user : String) (db : DBState)
    (commitVio commitReg : CommitOutcome) : HandlerResult :=
  if registrationDenied model then
    match commitVio with
    | CommitOutcome.ok =>
      HandlerResult.response
        { success := false,
          error := some "Policy Violation: Cannot deploy High Criticality Large models to non-green regions." }
        { db with audit_logs := db.audit_logs ++
            [{ action := "VIOLATION_DETECTED", user_id := user,
               details := { reason := some "High Criticality Large Model in Dirty Region",
                            model := model } }] }
    | CommitOutcome.fail msg => HandlerResult.uncaught msg db
  else
    match commitReg with
    | CommitOutcome.ok =>
      HandlerResult.response
        { success := true, data := some "Model registered securely in Governance Node." }
        { audit_logs := db.audit_logs ++
            [{ action := "REGISTER_MODEL", user_id := user,
               details := { reason := none, model := model } }],
          registered_models := db.registered_models ++
            [{ name := model.name, criticality := model.criticality,
               type := model.type, region := model.region_id }] }
    | CommitOutcome.fail msg =>
      HandlerResult.response { success := false, error := some msg } db

/-- The full register route: request-body validation against main.py's
`ModelCreate` (run by the framework before the handler), then identity
resolution, then the handler.  `none` models a 422 validation rejection,
in which case no handler logic executes. -/
def register_endpoint (model : ModelCreate) (authorization : Option String)
    (db : DBState) (commitVio commitReg : CommitOutcome) : Option HandlerResult :=
  if mainModelCreateValid model then
    some (register_model model (verify_token authorization) db commitVio commitReg)
  else
    none

/-- The POST /api/v1/policy/evaluate decision from main.py: deny exactly
when the lowercased model_id contains "critical". -/
def evaluate_policy (request : PolicyCheckRequest) : PolicyCheckResponse :=
  if strContains (lowerStr request.model_id) "critical" then
    { allowed := false, reason := "Security Policy: Critical models cannot be auto-slept." }
  else
    { allowed := true, reason := "Action permitted." }

/-- The full evaluate route: the handler acquires a session dependency but
its body never touches it, so the committed state is returned unchanged. -/
def evaluate_policy_endpoint (request : PolicyCheckRequest) (db : DBState) :
    PolicyCheckResponse × DBState :=
  (evaluate_policy request, db)

/-- The empty datastore, used for concrete instantiations. -/
def db0 : DBState :=
  { audit_logs := [], registered_models := [] }

/-- The spec's first concrete registration scenario. -/
def modelEast : ModelCreate :=
  { name := "m1", region_id := "us-east-1", type := "Large", criticality := "High" }

/-- The spec's second concrete registration scenario. -/
def modelWest : ModelCreate :=
  { name := "m2", region_id := "us-west-1", type := "Large", criticality := "High" }

/-- A body with criticality outside {Low, Medium, High} and
efficiency_score outside [0, 100]. -/
def urgentModel : ModelCreate :=
  { name := "m1", region_id := "us-east-1", type := "Large", criticality := "Urgent",
    efficiency_score := 200 }

/-- The spec-level deny condition of §4.2 `evaluate_registration`, stated
with the mathematical substring predicate. -/
abbrev SpecDenyCondition (m : ModelCreate) : Prop :=
  m.type = "Large" ∧ m.criticality = "High" ∧
    (OccursIn "east" m.region_id ∨ OccursIn "central" m.region_id)

theorem registrationDenied_iff (m : ModelCreate) :
    registrationDenied m = true ↔ SpecDenyCondition m := by
  simp only [registrationDenied, SpecDenyCondition, Bool.and_eq_true, Bool.or_eq_true,
    beq_iff_eq, strContains_iff]
  tauto

/-- C1: the spec promises that a registration body with
`criticality="Urgent"` (or `efficiency_score` outside [0,100]) is rejected
by schema validation before policy evaluation runs.  The route's actual
schema, the `ModelCreate` declared in main.py, imposes no such
constraints (only the never-imported `ModelCreate` of schemas.py does),
so the body is accepted, the policy check runs, and a model row with
criticality "Urgent" is committed. -/
theorem claim_C1_schema_gap :
    mainModelCreateValid urgentModel = true ∧
    schemasModelCreateValid urgentModel = false ∧
    register_endpoint urgentModel none db0 CommitOutcome.ok CommitOutcome.ok =
      some (HandlerResult.response
        { success := true, data := some "Model registered securely in Governance Node." }
        { audit_logs := [{ action := "REGISTER_MODEL", user_id := "anon-user",
                           details := { reason := none, model := urgentModel } }],
          registered_models := [{ name := "m1", criticality := "Urgent", type := "Large",
                                  region := "us-east-1" }] }) :=
  ⟨rfl, by decide, by decide⟩

/-- C2: the registration policy decision denies exactly when the model
type is "Large", the criticality is "High", and the region identifier
contains the substring "east" or the substring "central" (case-sensitive,
anywhere in the string); in every other case it allows. -/
theorem claim_C2_deny_characterization (m : ModelCreate) :
    registrationDenied m = true ↔
      (m.type = "Large" ∧ m.criticality = "High" ∧
        (OccursIn "east" m.region_id ∨ OccursIn "central" m.region_id)) :=
  registrationDenied_iff m

/-- C3: on the deny conjunction, the handler responds success:false with
the exact policy-violation message, appends exactly one audit row whose
action is VIOLATION_DETECTED, and appends no model row. -/
theorem claim_C3_violation_path (m : ModelCreate) (user : String) (db : DBState)
    (creg : CommitOutcome)
    (hty : m.type = "Large") (hcr : m.criticality = "High")
    (hreg : OccursIn "east" m.region_id ∨ OccursIn "central" m.region_id) :
    ∃ log : AuditLog, log.action = "VIOLATION_DETECTED" ∧
      register_model m user db CommitOutcome.ok creg =
        HandlerResult.response
          { success := false,
            error := some "Policy Violation: Cannot deploy High Criticality Large models to non-green regions." }
          { audit_logs := db.audit_logs ++ [log],
            registered_models := db.registered_models } := by
  have hd : registrationDenied m = true := (registrationDenied_iff m).mpr ⟨hty, hcr, hreg⟩
  exact ⟨{ action := "VIOLATION_DETECTED", user_id := user,
           details := { reason := some "High Criticality Large Model in Dirty Region",
                        model := m } },
         rfl, by simp [register_model, hd]⟩

/-- C3 witness: the spec's concrete us-east-1 violation scenario. -/
theorem claim_C3_witness :
    ∃ log : AuditLog, log.action = "VIOLATION_DETECTED" ∧
      register_model modelEast "anon-user" db0 CommitOutcome.ok CommitOutcome.ok =
        HandlerResult.response
          { success := false,
            error := some "Policy Violation: Cannot deploy High Criticality Large models to non-green regions." }
          { audit_logs := db0.audit_logs ++ [log],
            registered_models := db0.registered_models } :=
  claim_C3_violation_path modelEast "anon-user" db0 CommitOutcome.ok rfl rfl
    (Or.inl (by decide))

/-- C4: off the deny conjunction, the handler responds success:true and
appends exactly one model row copied from the request plus exactly one
audit row whose action is REGISTER_MODEL, under the single commit of that
transaction. -/
theorem claim_C4_register_path (m : ModelCreate) (user : String) (db : DBState)
    (cvio : CommitOutcome)
    (h : ¬ (m.type = "Large" ∧ m.criticality = "High" ∧
        (OccursIn "east" m.region_id ∨ OccursIn "central" m.region_id))) :
    ∃ log : AuditLog, log.action = "REGISTER_MODEL" ∧ log.user_id = user ∧
      register_model m user db cvio CommitOutcome.ok =
        HandlerResult.response
          { success := true, data := some "Model registered securely in Governance Node." }
          { audit_logs := db.audit_logs ++ [log],
            registered_models := db.registered_models ++
              [{ name := m.name, criticality := m.criticality, type := m.type,
                 region := m.region_id }] } := by
  have hd : registrationDenied m = false := by
    cases hb : registrationDenied m with
    | false => rfl
    | true => exact absurd ((registrationDenied_iff m).mp hb) h
  exact ⟨{ action := "REGISTER_MODEL", user_id := user,
           details := { reason := none, model := m } },
         rfl, rfl, by simp [register_model, hd]⟩

/-- C4 witness: the spec's concrete us-west-1 success scenario. -/
theorem claim_C4_witness :
    ∃ log : AuditLog, log.action = "REGISTER_MODEL" ∧ log.user_id = "anon-user" ∧
      register_model modelWest "anon-user" db0 CommitOutcome.ok CommitOutcome.ok =
        HandlerResult.response
          { success := true, data := some "Model registered securely in Governance Node." }
          { audit_logs := db0.audit_logs ++ [log],
            registered_models := db0.registered_models ++
              [{ name := modelWest.name, criticality := modelWest.criticality,
                 type := modelWest.type, region := modelWest.region_id }] } :=
  claim_C4_register_path modelWest "anon-user" db0 CommitOutcome.ok (by decide)

/-- C5: the policy-evaluate decision is allowed:false with the exact
security-policy reason precisely when the lowercased model_id contains
"critical"; otherwise it is allowed:true with reason "Action permitted.";
and it depends only on model_id, never on action or context. -/
theorem claim_C5_action_policy (req : PolicyCheckRequest) :
    (((evaluate_policy req).allowed = false ∧
        (evaluate_policy req).reason =
          "Security Policy: Critical models cannot be auto-slept.") ↔
      OccursIn "critical" (lowerStr req.model_id)) ∧
    (¬ OccursIn "critical" (lowerStr req.model_id) →
      evaluate_policy req = { allowed := true, reason := "Action permitted." }) ∧
    (∀ req2 : PolicyCheckRequest, req2.model_id = req.model_id →
      evaluate_policy req2 = evaluate_policy req) := by
  have hiff := strContains_iff (lowerStr req.model_id) "critical"
  by_cases hc : strContains (lowerStr req.model_id) "critical" = true
  · have ho := hiff.mp hc
    refine ⟨by simp [evaluate_policy, hc, ho], fun hno => absurd ho hno, ?_⟩
    intro req2 h2
    simp [evaluate_policy, h2]
  · have ho : ¬ OccursIn "critical" (lowerStr req.model_id) := fun o => hc (hiff.mpr o)
    refine ⟨by simp [evaluate_policy, hc, ho], fun _ => by simp [evaluate_policy, hc], ?_⟩
    intro req2 h2
    simp [evaluate_policy, h2]

/-- C5 witness: the spec's concrete critical-model-7 scenario. -/
theorem claim_C5_witness :
    (evaluate_policy { action := "sleep", model_id := "critical-model-7" }).allowed = false ∧
    (evaluate_policy { action := "sleep", model_id := "critical-model-7" }).reason =
      "Security Policy: Critical models cannot be auto-slept." :=
  (claim_C5_action_policy { action := "sleep", model_id := "critical-model-7" }).1.mpr
    (by decide)

/-- C6 counterexample: a commit failure on the violation path is NOT
turned into a success:false response — the exception escapes the
handler, because that `db.commit()` sits outside the try block. -/
theorem claim_C6_counterexample :
    register_model modelEast "anon-user" db0 (CommitOutcome.fail "disk full")
        CommitOutcome.ok =
      HandlerResult.uncaught "disk full" db0 ∧
    ¬ ∃ (resp : APIResponse) (db' : DBState),
        register_model modelEast "anon-user" db0 (CommitOutcome.fail "disk full")
            CommitOutcome.ok =
          HandlerResult.response resp db' := by
  have he : register_model modelEast "anon-user" db0 (CommitOutcome.fail "disk full")
      CommitOutcome.ok = HandlerResult.uncaught "disk full" db0 := by decide
  refine ⟨he, ?_⟩
  rintro ⟨resp, db', h⟩
  rw [he] at h
  exact HandlerResult.noConfusion h

/-- C6 amended: a storage error while committing inside the try block
(the registration path) is caught, the transaction is rolled back, and
the response is success:false carrying the raw error text; a storage
error while committing on the violation path escapes the handler
uncaught, leaving the committed state unchanged. -/
theorem claim_C6_storage_errors (m : ModelCreate) (user : String) (db : DBState)
    (msg : String) :
    (registrationDenied m = false →
      ∀ cvio : CommitOutcome,
        register_model m user db cvio (CommitOutcome.fail msg) =
          HandlerResult.response { success := false, error := some msg } db) ∧
    (registrationDenied m = true →
      ∀ creg : CommitOutcome,
        register_model m user db (CommitOutcome.fail msg) creg =
          HandlerResult.uncaught msg db) := by
  constructor
  · intro hd cvio
    simp [register_model, hd]
  · intro hd creg
    simp [register_model, hd]

/-- C6 witness: a concrete caught commit failure on the registration
path. -/
theorem claim_C6_witness :
    register_model modelWest "anon-user" db0 CommitOutcome.ok
        (CommitOutcome.fail "disk full") =
      HandlerResult.response { success := false, error := some "disk full" } db0 :=
  (claim_C6_storage_errors modelWest "anon-user" db0 "disk full").1 (by decide)
    CommitOutcome.ok

/-- C7 counterexample: the health payload's mode string is
"standalone (sqlite)", not the "standalone" the claim states. -/
theorem claim_C7_counterexample :
    (health_check db0).1 ≠ { status := "healthy", mode := "standalone" } := by
  decide

/-- C7 amended: every GET / call returns the constant payload
status "healthy", mode "standalone (sqlite)", and leaves the datastore
state unchanged, so repeated calls agree and never mutate state. -/
theorem claim_C7_health (db : DBState) :
    health_check db = ({ status := "healthy", mode := "standalone (sqlite)" }, db) :=
  rfl

/-- C8: identity resolution yields "anon-user" when the header is absent
and "authenticated-user" for any non-empty present value, and every audit
row the register endpoint appends carries exactly that identity as its
user_id. -/
theorem claim_C8_identity :
    verify_token none = "anon-user" ∧
    (∀ s : String, s ≠ "" → verify_token (some s) = "authenticated-user") ∧
    (∀ (m : ModelCreate) (auth : Option String) (db : DBState)
        (cvio creg : CommitOutcome) (resp : APIResponse) (db' : DBState),
      register_endpoint m auth db cvio creg = some (HandlerResult.response resp db') →
      ∃ newLogs : List AuditLog,
        db'.audit_logs = db.audit_logs ++ newLogs ∧
        ∀ log ∈ newLogs, log.user_id = verify_token auth) := by
  refine ⟨rfl, ?_, ?_⟩
  · intro s hs
    simp [verify_token, pyFalsyHeader, hs]
  · intro m auth db cvio creg resp db' h
    have hh : register_model m (verify_token auth) db cvio creg =
        HandlerResult.response resp db' := by
      simpa [register_endpoint, mainModelCreateValid] using h
    unfold register_model at hh
    by_cases hd : registrationDenied m = true
    · rw [if_pos hd] at hh
      cases cvio with
      | ok =>
        injection hh with h1 h2
        refine ⟨[{ action := "VIOLATION_DETECTED", user_id := verify_token auth,
                   details := { reason := some "High Criticality Large Model in Dirty Region",
                                model := m } }], ?_, ?_⟩
        · rw [← h2]
        · intro log hl
          rw [List.mem_singleton] at hl
          rw [hl]
      | fail msg => exact HandlerResult.noConfusion hh
    · rw [if_neg hd] at hh
      cases creg with
      | ok =>
        injection hh with h1 h2
        refine ⟨[{ action := "REGISTER_MODEL", user_id := verify_token auth,
                   details := { reason := none, model := m } }], ?_, ?_⟩
        · rw [← h2]
        · intro log hl
          rw [List.mem_singleton] at hl
          rw [hl]
      | fail msg =>
        injection hh with h1 h2
        exact ⟨[], by rw [← h2]; simp, by intro log hl; cases hl⟩

/-- C8 witness: a present non-empty header resolves to
"authenticated-user". -/
theorem claim_C8_witness :
    verify_token (some "Bearer abc") = "authenticated-user" :=
  claim_C8_identity.2.1 "Bearer abc" (by decide)

/-- C9: the policy-evaluate handler performs no persistence: the
committed datastore state after the request, both tables included, is
exactly the state before it. -/
theorem claim_C9_no_persistence (req : PolicyCheckRequest) (db : DBState) :
    (evaluate_policy_endpoint req db).2 = db ∧
    (evaluate_policy_endpoint req db).2.audit_logs = db.audit_logs ∧
    (evaluate_policy_endpoint req db).2.registered_models = db.registered_models :=
  ⟨rfl, rfl, rfl⟩

/-- C10: a present-but-empty header value is falsy in Python, so identity
resolution returns "anon-user", the same identity as an absent header. -/
theorem claim_C10_empty_header :
    verify_token (some "") = "anon-user" ∧
    verify_token (some "") = verify_token none := by
  exact ⟨by decide, by decide⟩

end Governance
